import Mathlib

/-
  Shallow embedding of src/lib/ExecutionEngine/Script.cpp (the bcc Script
  orchestrator / state machine).  External collaborators that live outside
  this repository slice (ScriptCompiled, ScriptCached, MCCacheReader,
  MCCacheWriter, SourceInfo, FileHandle, the OS file system and the
  property store) are represented by an explicit environment record whose
  fields give the outcome of each external call; the Script-level control
  flow and field updates are translated line by line from the source.
  The build is configured with USE_CACHE and USE_MCJIT enabled, which is
  the configuration the specification describes.
-/

namespace BCC

/-- C++ std::string / char const* content, embedded as a list of characters. -/
abbrev Str := List Char

/-- ScriptStatus (Script.h): the Script state tag. -/
inductive ScriptStatus where
  | unknown
  | compiled
  | cached
deriving DecidableEq, Repr

/-- BCC error codes (bcc.h): BCC_NO_ERROR, BCC_INVALID_VALUE,
BCC_INVALID_OPERATION, BCC_OUT_OF_MEMORY. -/
inductive BCCError where
  | noError
  | invalidValue
  | invalidOperation
  | outOfMemory
deriving DecidableEq, Repr

/-- ScriptObject (Script.h): which output mode was last prepared. -/
inductive ObjectType where
  | unknownObj
  | relocatable
  | sharedObject
  | executable
deriving DecidableEq, Repr

/-- An opaque SourceInfo descriptor (SourceInfo.h, outside src/); only its
identity matters at the Script level. -/
structure SourceInfo where
  id : Nat
deriving DecidableEq, Repr

/-- Modelled from the spec: the query surface shared by the external
ScriptCompiled and ScriptCached artifact classes (spec section 2 and
section 6); their implementations are outside this repository slice, so an
artifact is embedded as the data its accessors would report.  `errMsg` is
the char const* returned by the artifact's getCompilerErrorMessage. -/
structure Artifact where
  errMsg : Option Str
  elfSize : Nat
  exportVarCount : Nat
  exportFuncCount : Nat
  exportForEachCount : Nat
  pragmaCount : Nat
  funcCount : Nat
  objectSlotCount : Nat
  exportVars : List Nat
  exportFuncs : List Nat
  exportForEachs : List Nat
  pragmas : List Nat
  funcInfos : List Nat
  objectSlots : List Nat
  exportVarNames : List Str
  exportFuncNames : List Str
  exportForEachNames : List Str
  symbols : List (Str × Nat)
deriving DecidableEq, Repr

/-- CompilerOption (CompilerOption.h): the two fields Script.cpp sets. -/
structure CompilerOption where
  relocModel : Nat
  loadAfterCompile : Bool
deriving DecidableEq, Repr

/-- The Script fields of Script.h that Script.cpp reads or writes.
Pointers are embedded as Option values (none = NULL). -/
structure ScriptState where
  mStatus : ScriptStatus
  mErrorCode : BCCError
  mSourceList0 : Option SourceInfo
  mSourceList1 : Option SourceInfo
  mCompiled : Option Artifact
  mCached : Option Artifact
  mCacheDir : Str
  mCacheName : Str
  mpExtSymbolLookupFn : Option Nat
  mpExtSymbolLookupFnContext : Nat
  mObjectType : ObjectType
  mIsContextSlotNotAvail : Bool
deriving DecidableEq, Repr

/-- Outcomes of the calls Script.cpp makes into external collaborators
(file system, cache codec, backend compiler, property store).  Each field
is the result the corresponding external call returns in one run. -/
structure Env where
  nocacheProp : Bool
  cacheObjOpenOk : Bool
  cacheInfoOpenOk : Bool
  checkCacheOk : Bool
  readCacheResult : Option Artifact
  readerContextSlotNotAvail : Bool
  allocCompiledOk : Bool
  newCompiled : Artifact
  prepareModule0Ok : Bool
  prepareModule1Ok : Bool
  readModuleOk : Bool
  linkModuleOk : Bool
  compileOk : Bool
  statOk : Bool
  createBufferResult : Option SourceInfo
  createModuleResult : Option SourceInfo
  createFileResult : Option SourceInfo
  wObjOpenOk : Bool
  wInfoOpenOk : Bool
  writeCacheFileOk : Bool
  relocOpenOk : Bool
  relocBytesWritten : Nat
deriving Repr

/-- Modelled from the spec: a freshly constructed Script (the constructor
is in Script.h, outside src/): status Unknown, empty error, no sources, no
artifacts, empty cache identification, no symbol callback (spec section 3). -/
def initState : ScriptState :=
  { mStatus := .unknown
    mErrorCode := .noError
    mSourceList0 := none
    mSourceList1 := none
    mCompiled := none
    mCached := none
    mCacheDir := []
    mCacheName := []
    mpExtSymbolLookupFn := none
    mpExtSymbolLookupFnContext := 0
    mObjectType := .unknownObj
    mIsContextSlotNotAvail := false }

/-- mSourceList[idx] assignment. -/
def setSlot (s : ScriptState) (idx : Fin 2) (v : Option SourceInfo) : ScriptState :=
  if idx.val = 0 then { s with mSourceList0 := v } else { s with mSourceList1 := v }

/-- mSourceList[idx] read. -/
def getSlot (s : ScriptState) (idx : Fin 2) : Option SourceInfo :=
  if idx.val = 0 then s.mSourceList0 else s.mSourceList1

/-- Script::addSourceBC (Script.cpp lines 76-111).  Checks resName NULL,
then the state, then bitcode NULL; stores the SourceInfo result (possibly
NULL) into the slot and reports OutOfMemory when it is NULL. -/
def addSourceBC (env : Env) (s : ScriptState) (idx : Fin 2) (resName : Option Str)
    (bitcode : Option Nat) (bitcodeSize : Nat) (flags : Nat) : Int × ScriptState :=
  if resName = none then (1, { s with mErrorCode := .invalidValue })
  else if s.mStatus ≠ .unknown then (1, { s with mErrorCode := .invalidOperation })
  else if bitcode = none then (1, { s with mErrorCode := .invalidValue })
  else
    let s1 := setSlot s idx env.createBufferResult
    if env.createBufferResult = none then (1, { s1 with mErrorCode := .outOfMemory })
    else (0, s1)

/-- Script::addSourceModule (Script.cpp lines 114-138).  Checks the state
first, then module NULL. -/
def addSourceModule (env : Env) (s : ScriptState) (idx : Fin 2)
    (module : Option Nat) (flags : Nat) : Int × ScriptState :=
  if s.mStatus ≠ .unknown then (1, { s with mErrorCode := .invalidOperation })
  else if module = none then (1, { s with mErrorCode := .invalidValue })
  else
    let s1 := setSlot s idx env.createModuleResult
    if env.createModuleResult = none then (1, { s1 with mErrorCode := .outOfMemory })
    else (0, s1)

/-- Script::addSourceFile (Script.cpp lines 141-172).  Checks the state
first, then path NULL, then stat(2). -/
def addSourceFile (env : Env) (s : ScriptState) (idx : Fin 2)
    (path : Option Str) (flags : Nat) : Int × ScriptState :=
  if s.mStatus ≠ .unknown then (1, { s with mErrorCode := .invalidOperation })
  else if path = none then (1, { s with mErrorCode := .invalidValue })
  else if env.statOk = false then (1, { s with mErrorCode := .invalidValue })
  else
    let s1 := setSlot s idx env.createFileResult
    if env.createFileResult = none then (1, { s1 with mErrorCode := .outOfMemory })
    else (0, s1)

/-- Script::isCacheable (Script.cpp lines 795-814), with USE_CACHE on. -/
def isCacheable (env : Env) (s : ScriptState) : Bool :=
  if env.nocacheProp then false
  else if s.mCacheDir = [] ∨ s.mCacheName = [] then false
  else true

/-- The cacheDir sanitization of Script.cpp lines 263-267: append a slash
when the string is non-empty and does not already end in one. -/
def sanitizeDir (d : Str) : Str :=
  if d ≠ [] ∧ d.getLast? ≠ some '/' then d ++ ['/'] else d

/-- Script::internalLoadCache (Script.cpp lines 254-329).  NULL arguments,
a false isCacheable, an unopenable object or info file, and a failed
readCacheFile are all misses (return 1); a successful read installs the
cached artifact and moves the status to Cached. -/
def internalLoadCache (env : Env) (s : ScriptState) (cacheDir cacheName : Option Str)
    (checkOnly : Bool) : Int × ScriptState :=
  match cacheDir, cacheName with
  | some cd, some cn =>
    let s1 : ScriptState := { s with mCacheName := cn, mCacheDir := sanitizeDir cd }
    if isCacheable env s1 = false then (1, s1)
    else if env.cacheObjOpenOk = false then (1, s1)
    else if env.cacheInfoOpenOk = false then (1, s1)
    else if checkOnly then (if env.checkCacheOk then (0, s1) else (1, s1))
    else
      match env.readCacheResult with
      | none => (1, { s1 with mIsContextSlotNotAvail := env.readerContextSlotNotAvail })
      | some c => (0, { s1 with mCached := some c, mStatus := .cached })
  | _, _ => (1, s)

/-- The early-return chain of Script::internalCompile after the artifact
allocation (Script.cpp lines 350-389): missing primary source, failed
prepareModule on either source, failed readModule, failed linkModule,
failed compile.  None of these branches changes any Script field. -/
def internalCompileRet (env : Env) (s1 : ScriptState) : Int :=
  if s1.mSourceList0 = none then 1
  else if env.prepareModule0Ok = false then 1
  else if s1.mSourceList1 ≠ none ∧ env.prepareModule1Ok = false then 1
  else if env.readModuleOk = false then 1
  else if s1.mSourceList1 ≠ none ∧ env.linkModuleOk = false then 1
  else if env.compileOk = false then 1
  else 0

/-- Script::internalCompile (Script.cpp lines 332-390).  Line 334 stores
the `new (std::nothrow)` result into mCompiled unconditionally, so a
failed allocation stores NULL into mCompiled before the check reports
OutOfMemory; on success mStatus = Compiled is set (line 342) before any
pipeline step runs.  The outcome of the pipeline steps comes from the
environment through the option and the backend, abstracted in
internalCompileRet. -/
def internalCompile (env : Env) (opt : CompilerOption) (s : ScriptState) :
    Int × ScriptState :=
  if env.allocCompiledOk = false then
    (1, { s with mCompiled := none, mErrorCode := .outOfMemory })
  else
    let s1 : ScriptState := { s with mCompiled := some env.newCompiled, mStatus := .compiled }
    (internalCompileRet env s1, s1)

/-- Script::getCompilerErrorMessage (Script.cpp lines 475-482). -/
def getCompilerErrorMessage (s : ScriptState) : Option Str × ScriptState :=
  if s.mStatus ≠ .compiled then (none, { s with mErrorCode := .invalidOperation })
  else
    match s.mCompiled with
    | some c => (c.errMsg, s)
    | none => (none, s)

/-- Script::writeCache (Script.cpp lines 392-472).  Returns 1 only from
the precondition check (status not Compiled, or a NULL compiler error
message pointer); every file-system failure inside the USE_CACHE block is
swallowed and the function returns 0.  The third component reports whether
the pair of cache files was actually written to disk (the partial files
are truncated and unlinked when writeCacheFile fails). -/
def writeCache (env : Env) (s : ScriptState) : Int × ScriptState × Bool :=
  if s.mStatus ≠ .compiled then (1, s, false)
  else if (getCompilerErrorMessage s).1 = none then (1, s, false)
  else if isCacheable env s = false then (0, s, false)
  else if env.wObjOpenOk = false ∨ env.wInfoOpenOk = false then (0, s, false)
  else if env.writeCacheFileOk = false then (0, s, false)
  else (0, s, true)

/-- The default-constructed CompilerOption of Script.cpp line 230
(defaults from CompilerOption.h, outside src/; the exact values are never
inspected by Script.cpp). -/
def defaultCompilerOption : CompilerOption :=
  { relocModel := 0, loadAfterCompile := true }

/-- Script::prepareExecutable (Script.cpp lines 215-251), USE_CACHE on.
Status check, cache-load attempt, on miss compile then writeCache; the
ALOGE on the compile-failure path calls getCompilerErrorMessage, whose
errorCode side effect is threaded through.  registerObjectWithGDB has no
Script-visible effect. -/
def prepareExecutable (env : Env) (s : ScriptState)
    (cacheDir cacheName : Option Str) (flags : Nat) : Int × ScriptState :=
  if s.mStatus ≠ .unknown then (1, { s with mErrorCode := .invalidOperation })
  else
    let r1 := internalLoadCache env s cacheDir cacheName false
    if r1.1 ≠ 0 then
      let r2 := internalCompile env defaultCompilerOption r1.2
      if r2.1 ≠ 0 then (r2.1, (getCompilerErrorMessage r2.2).2)
      else
        let r3 := writeCache env r2.2
        if r3.1 ≠ 0 then (r3.1, r3.2.1)
        else (0, { r3.2.1 with mObjectType := .executable })
    else (0, { r1.2 with mObjectType := .executable })

/-- Script::getELFSize (Script.cpp lines 817-831). -/
def getELFSize (s : ScriptState) : Nat :=
  match s.mStatus with
  | .compiled => (match s.mCompiled with | some c => c.elfSize | none => 0)
  | .cached => (match s.mCached with | some c => c.elfSize | none => 0)
  | .unknown => 0

/-- Script::prepareRelocatable (Script.cpp lines 174-204).  No status
check; runs internalCompile unconditionally.  On a short write the file is
unlinked and the function executes `return false`, which in this int
function is the value 0.  The third component is the file left at objPath
(none = no file / deleted). -/
def prepareRelocatable (env : Env) (s : ScriptState) (objPath : Option Str)
    (relocModel : Nat) (flags : Nat) : Int × ScriptState × Option Nat :=
  let opt : CompilerOption := { relocModel := relocModel, loadAfterCompile := false }
  let r := internalCompile env opt s
  if r.1 ≠ 0 then (r.1, (getCompilerErrorMessage r.2).2, none)
  else if objPath = none ∨ env.relocOpenOk = false then (1, r.2, none)
  else if env.relocBytesWritten ≠ getELFSize r.2 then (0, r.2, none)
  else (0, { r.2 with mObjectType := .relocatable }, some env.relocBytesWritten)

/-- Script::prepareSharedObject (Script.cpp lines 207-212): unimplemented,
returns 1 without touching any field. -/
def prepareSharedObject (s : ScriptState) : Int × ScriptState :=
  (1, s)

/-- Script::registerSymbolCallback (Script.cpp lines 783-793): stores the
callback and context unconditionally, then reports InvalidOperation when
the status has left Unknown. -/
def registerSymbolCallback (s : ScriptState) (fn : Option Nat) (ctx : Nat) :
    Int × ScriptState :=
  let s1 := { s with mpExtSymbolLookupFn := fn, mpExtSymbolLookupFnContext := ctx }
  if s1.mStatus ≠ .unknown then (1, { s1 with mErrorCode := .invalidOperation })
  else (0, s1)

/-- The shared shape of the six const count queries (Script.cpp lines
505-616): delegate to the artifact selected by the status, 0 in the
default case; being const members they cannot write mErrorCode.  The inner
none branches are NULL dereferences in C++, unreachable in tag-consistent
states. -/
def delegateNat (s : ScriptState) (f : Artifact → Nat) : Nat :=
  match s.mStatus with
  | .compiled => (match s.mCompiled with | some c => f c | none => 0)
  | .cached => (match s.mCached with | some c => f c | none => 0)
  | .unknown => 0

def getExportVarCount (s : ScriptState) : Nat := delegateNat s (·.exportVarCount)

def getExportFuncCount (s : ScriptState) : Nat := delegateNat s (·.exportFuncCount)

def getExportForEachCount (s : ScriptState) : Nat := delegateNat s (·.exportForEachCount)

def getPragmaCount (s : ScriptState) : Nat := delegateNat s (·.pragmaCount)

def getFuncCount (s : ScriptState) : Nat := delegateNat s (·.funcCount)

def getObjectSlotCount (s : ScriptState) : Nat := delegateNat s (·.objectSlotCount)

/-- The shared shape of the fixed-capacity list-fill queries (the DELEGATE
macro of Script.cpp lines 619-780): both the Cached and the Compiled case
delegate; the default case writes nothing to the caller's buffer and sets
InvalidOperation.  The filled payload (first component, none = buffer
untouched) is modelled from the spec: a fixed-capacity list-fill query
(spec section 6). -/
def delegateList (s : ScriptState) (n : Nat) (f : Artifact → List Nat) :
    Option (List Nat) × ScriptState :=
  match s.mStatus with
  | .cached => (match s.mCached with | some c => (some ((f c).take n), s) | none => (none, s))
  | .compiled => (match s.mCompiled with | some c => (some ((f c).take n), s) | none => (none, s))
  | .unknown => (none, { s with mErrorCode := .invalidOperation })

def getExportVarList (s : ScriptState) (n : Nat) : Option (List Nat) × ScriptState :=
  delegateList s n (·.exportVars)

def getExportFuncList (s : ScriptState) (n : Nat) : Option (List Nat) × ScriptState :=
  delegateList s n (·.exportFuncs)

def getExportForEachList (s : ScriptState) (n : Nat) : Option (List Nat) × ScriptState :=
  delegateList s n (·.exportForEachs)

def getPragmaList (s : ScriptState) (n : Nat) : Option (List Nat) × ScriptState :=
  delegateList s n (·.pragmas)

def getFuncInfoList (s : ScriptState) (n : Nat) : Option (List Nat) × ScriptState :=
  delegateList s n (·.funcInfos)

def getObjectSlotList (s : ScriptState) (n : Nat) : Option (List Nat) × ScriptState :=
  delegateList s n (·.objectSlots)

/-- Script::getExportVarNameList (Script.cpp lines 639-649): only the
Compiled case delegates; every other status (including Cached) falls to
the default, writes nothing and sets InvalidOperation. -/
def getExportVarNameList (s : ScriptState) : Option (List Str) × ScriptState :=
  match s.mStatus with
  | .compiled => (match s.mCompiled with | some c => (some c.exportVarNames, s) | none => (none, s))
  | _ => (none, { s with mErrorCode := .invalidOperation })

/-- Script::getExportFuncNameList (Script.cpp lines 672-682): Compiled
case only, like getExportVarNameList. -/
def getExportFuncNameList (s : ScriptState) : Option (List Str) × ScriptState :=
  match s.mStatus with
  | .compiled => (match s.mCompiled with | some c => (some c.exportFuncNames, s) | none => (none, s))
  | _ => (none, { s with mErrorCode := .invalidOperation })

/-- Script::getExportForEachNameList (Script.cpp lines 704-714): Compiled
case only, like getExportVarNameList. -/
def getExportForEachNameList (s : ScriptState) : Option (List Str) × ScriptState :=
  match s.mStatus with
  | .compiled => (match s.mCompiled with | some c => (some c.exportForEachNames, s) | none => (none, s))
  | _ => (none, { s with mErrorCode := .invalidOperation })

/-- Script::lookup (Script.cpp lines 485-502). -/
def lookup (s : ScriptState) (name : Str) : Option Nat × ScriptState :=
  match s.mStatus with
  | .compiled => (match s.mCompiled with | some c => (c.symbols.lookup name, s) | none => (none, s))
  | .cached => (match s.mCached with | some c => (c.symbols.lookup name, s) | none => (none, s))
  | .unknown => (none, { s with mErrorCode := .invalidOperation })

/-- One host-visible Script operation, with its arguments.  opCountQuery
stands for the six const count queries, which cannot modify the state. -/
inductive Op where
  | opAddSourceBC (idx : Fin 2) (resName : Option Str) (bitcode : Option Nat) (sz fl : Nat)
  | opAddSourceModule (idx : Fin 2) (module : Option Nat) (fl : Nat)
  | opAddSourceFile (idx : Fin 2) (path : Option Str) (fl : Nat)
  | opPrepareRelocatable (objPath : Option Str) (relocModel fl : Nat)
  | opPrepareSharedObject
  | opPrepareExecutable (cacheDir cacheName : Option Str) (fl : Nat)
  | opRegisterSymbolCallback (fn : Option Nat) (ctx : Nat)
  | opLookup (name : Str)
  | opGetCompilerErrorMessage
  | opGetExportVarList (n : Nat)
  | opGetExportFuncList (n : Nat)
  | opGetExportForEachList (n : Nat)
  | opGetPragmaList (n : Nat)
  | opGetFuncInfoList (n : Nat)
  | opGetObjectSlotList (n : Nat)
  | opGetExportVarNameList
  | opGetExportFuncNameList
  | opGetExportForEachNameList
  | opCountQuery

/-- The state transition of one operation under one environment. -/
def stepOp (env : Env) (op : Op) (s : ScriptState) : ScriptState :=
  match op with
  | .opAddSourceBC i r b sz fl => (addSourceBC env s i r b sz fl).2
  | .opAddSourceModule i m fl => (addSourceModule env s i m fl).2
  | .opAddSourceFile i p fl => (addSourceFile env s i p fl).2
  | .opPrepareRelocatable p rm fl => (prepareRelocatable env s p rm fl).2.1
  | .opPrepareSharedObject => (prepareSharedObject s).2
  | .opPrepareExecutable cd cn fl => (prepareExecutable env s cd cn fl).2
  | .opRegisterSymbolCallback fn ctx => (registerSymbolCallback s fn ctx).2
  | .opLookup nm => (lookup s nm).2
  | .opGetCompilerErrorMessage => (getCompilerErrorMessage s).2
  | .opGetExportVarList n => (getExportVarList s n).2
  | .opGetExportFuncList n => (getExportFuncList s n).2
  | .opGetExportForEachList n => (getExportForEachList s n).2
  | .opGetPragmaList n => (getPragmaList s n).2
  | .opGetFuncInfoList n => (getFuncInfoList s n).2
  | .opGetObjectSlotList n => (getObjectSlotList s n).2
  | .opGetExportVarNameList => (getExportVarNameList s).2
  | .opGetExportFuncNameList => (getExportFuncNameList s).2
  | .opGetExportForEachNameList => (getExportForEachNameList s).2
  | .opCountQuery => s

/-- States reachable from a fresh Script by any operation sequence. -/
inductive Reachable : ScriptState → Prop where
  | start : Reachable initState
  | step {s : ScriptState} : Reachable s → ∀ (env : Env) (op : Op), Reachable (stepOp env op s)

/-- The guard of the amended artifact invariant: prepareRelocatable is
invoked only on a Script still in the Unknown state.  On a Cached script
it would leave both artifacts live, and on a Compiled script a failing
artifact allocation (line 334 storing NULL into mCompiled) would leave
status Compiled with a NULL compiled artifact. -/
def opOkOn (s : ScriptState) : Op → Prop
  | .opPrepareRelocatable _ _ _ => s.mStatus = .unknown
  | _ => True

/-- States reachable when prepareRelocatable is invoked only on
Unknown-status Scripts. -/
inductive ReachableG : ScriptState → Prop where
  | start : ReachableG initState
  | step {s : ScriptState} : ReachableG s → ∀ (env : Env) (op : Op), opOkOn s op →
      ReachableG (stepOp env op s)

/-- The artifact/status consistency invariant of spec section 3: at most
one artifact pointer is live, the live one matches the status tag, and an
Unknown Script has no artifact. -/
def artifactInv (s : ScriptState) : Prop :=
  (s.mCompiled = none ∨ s.mCached = none) ∧
  (s.mStatus = .compiled → s.mCompiled ≠ none) ∧
  (s.mStatus = .cached → s.mCached ≠ none) ∧
  (s.mStatus = .unknown → s.mCompiled = none ∧ s.mCached = none)

/-- t agrees with s on the status tag and both artifact pointers. -/
def sameCore (s t : ScriptState) : Prop :=
  t.mStatus = s.mStatus ∧ t.mCompiled = s.mCompiled ∧ t.mCached = s.mCached

/- Concrete example data used by the closed theorems. -/

def src1 : SourceInfo := ⟨1⟩

def artifact0 : Artifact :=
  { errMsg := none, elfSize := 0, exportVarCount := 0, exportFuncCount := 0,
    exportForEachCount := 0, pragmaCount := 0, funcCount := 0, objectSlotCount := 0,
    exportVars := [], exportFuncs := [], exportForEachs := [], pragmas := [],
    funcInfos := [], objectSlots := [], exportVarNames := [], exportFuncNames := [],
    exportForEachNames := [], symbols := [] }

/-- A compiled artifact whose error-message pointer is non-NULL. -/
def artifactM : Artifact := { artifact0 with errMsg := some ['m'] }

/-- A cached artifact with a distinctive export-variable count. -/
def artifactC : Artifact := { artifact0 with exportVarCount := 4 }

/-- An environment in which every external call fails or returns nothing. -/
def env0 : Env :=
  { nocacheProp := false, cacheObjOpenOk := false, cacheInfoOpenOk := false,
    checkCacheOk := false, readCacheResult := none, readerContextSlotNotAvail := false,
    allocCompiledOk := false, newCompiled := artifact0, prepareModule0Ok := false,
    prepareModule1Ok := false, readModuleOk := false, linkModuleOk := false,
    compileOk := false, statOk := false, createBufferResult := none,
    createModuleResult := none, createFileResult := none, wObjOpenOk := false,
    wInfoOpenOk := false, writeCacheFileOk := false, relocOpenOk := false,
    relocBytesWritten := 0 }

/-- An environment in which allocation and the whole compile pipeline
succeed, producing artifactM. -/
def envCompileOk : Env :=
  { env0 with
    allocCompiledOk := true
    newCompiled := artifactM
    prepareModule0Ok := true
    prepareModule1Ok := true
    readModuleOk := true
    linkModuleOk := true
    compileOk := true }

/-- envCompileOk plus a writable relocatable output file whose write
completes in full (artifactM has ELF size 0). -/
def envRelocOk : Env :=
  { envCompileOk with relocOpenOk := true, relocBytesWritten := 0 }

/-- An environment in which the cache files open and the cache reader
succeeds, returning artifactC. -/
def envHit : Env :=
  { env0 with
    cacheObjOpenOk := true
    cacheInfoOpenOk := true
    readCacheResult := some artifactC }

/-- An environment for addSource calls: SourceInfo construction succeeds. -/
def envAddSrc : Env := { env0 with createBufferResult := some src1 }

/-- A fresh Script that already holds a primary source. -/
def srcState : ScriptState := { initState with mSourceList0 := some src1 }

/-- A Script finalized through a cache hit: status Cached, cached artifact
live (prepareExecutable on a fresh Script under envHit). -/
def cachedHitState : ScriptState :=
  stepOp envHit (.opPrepareExecutable (some ['d']) (some ['n']) 0) initState

/-- Both-artifacts-live state: a cache-hit Script on which
prepareRelocatable is then invoked (the compile pipeline allocates a new
compiled artifact while the cached one is still installed). -/
def bothLiveState : ScriptState :=
  stepOp envCompileOk (.opPrepareRelocatable (some ['p']) 0 0) cachedHitState

/-- A Script finalized as Compiled: addSourceBC then prepareRelocatable,
both successful. -/
def compiledRelocState : ScriptState :=
  stepOp envRelocOk (.opPrepareRelocatable (some ['p']) 0 0)
    (stepOp envAddSrc (.opAddSourceBC 0 (some ['r']) (some 1) 4 0) initState)

/-- envCompileOk producing an artifact with ELF size 2, a writable output
file, but an OS write that reports only 1 byte written. -/
def envShortWrite : Env :=
  { envCompileOk with
    newCompiled := { artifactM with elfSize := 2 }
    relocOpenOk := true
    relocBytesWritten := 1 }

/- Helper lemmas. -/

theorem artifactInv_of_sameCore {s t : ScriptState} (hc : sameCore s t)
    (h : artifactInv s) : artifactInv t := by
  unfold artifactInv at h ⊢
  rw [hc.1, hc.2.1, hc.2.2]
  exact h

theorem sameCore_trans {s t u : ScriptState} (h1 : sameCore s t) (h2 : sameCore t u) :
    sameCore s u :=
  ⟨h2.1.trans h1.1, h2.2.1.trans h1.2.1, h2.2.2.trans h1.2.2⟩

theorem sameCore_setSlot (s : ScriptState) (idx : Fin 2) (v : Option SourceInfo) :
    sameCore s (setSlot s idx v) := by
  unfold setSlot
  split <;> exact ⟨rfl, rfl, rfl⟩

theorem sameCore_addSourceBC (env : Env) (s : ScriptState) (idx : Fin 2)
    (rn : Option Str) (bc : Option Nat) (sz fl : Nat) :
    sameCore s (addSourceBC env s idx rn bc sz fl).2 := by
  unfold addSourceBC setSlot
  repeat' split
  all_goals exact ⟨rfl, rfl, rfl⟩

theorem sameCore_addSourceModule (env : Env) (s : ScriptState) (idx : Fin 2)
    (md : Option Nat) (fl : Nat) :
    sameCore s (addSourceModule env s idx md fl).2 := by
  unfold addSourceModule setSlot
  repeat' split
  all_goals exact ⟨rfl, rfl, rfl⟩

theorem sameCore_addSourceFile (env : Env) (s : ScriptState) (idx : Fin 2)
    (p : Option Str) (fl : Nat) :
    sameCore s (addSourceFile env s idx p fl).2 := by
  unfold addSourceFile setSlot
  repeat' split
  all_goals exact ⟨rfl, rfl, rfl⟩

theorem sameCore_registerSymbolCallback (s : ScriptState) (fn : Option Nat) (ctx : Nat) :
    sameCore s (registerSymbolCallback s fn ctx).2 := by
  unfold registerSymbolCallback
  dsimp only
  split <;> exact ⟨rfl, rfl, rfl⟩

theorem sameCore_lookup (s : ScriptState) (nm : Str) : sameCore s (lookup s nm).2 := by
  unfold lookup
  repeat' split
  all_goals exact ⟨rfl, rfl, rfl⟩

theorem sameCore_getCompilerErrorMessage (s : ScriptState) :
    sameCore s (getCompilerErrorMessage s).2 := by
  unfold getCompilerErrorMessage
  repeat' split
  all_goals exact ⟨rfl, rfl, rfl⟩

theorem sameCore_delegateList (s : ScriptState) (n : Nat) (f : Artifact → List Nat) :
    sameCore s (delegateList s n f).2 := by
  unfold delegateList
  repeat' split
  all_goals exact ⟨rfl, rfl, rfl⟩

theorem sameCore_getExportVarNameList (s : ScriptState) :
    sameCore s (getExportVarNameList s).2 := by
  unfold getExportVarNameList
  repeat' split
  all_goals exact ⟨rfl, rfl, rfl⟩

theorem sameCore_getExportFuncNameList (s : ScriptState) :
    sameCore s (getExportFuncNameList s).2 := by
  unfold getExportFuncNameList
  repeat' split
  all_goals exact ⟨rfl, rfl, rfl⟩

theorem sameCore_getExportForEachNameList (s : ScriptState) :
    sameCore s (getExportForEachNameList s).2 := by
  unfold getExportForEachNameList
  repeat' split
  all_goals exact ⟨rfl, rfl, rfl⟩

theorem internalCompile_state (env : Env) (opt : CompilerOption) (s : ScriptState) :
    (internalCompile env opt s).2 =
      if env.allocCompiledOk = false then
        { s with mCompiled := none, mErrorCode := .outOfMemory }
      else { s with mCompiled := some env.newCompiled, mStatus := .compiled } := by
  by_cases h : env.allocCompiledOk = false <;> simp [internalCompile, h]

theorem internalCompile_zero (env : Env) (opt : CompilerOption) (s : ScriptState)
    (h : (internalCompile env opt s).1 = 0) :
    (internalCompile env opt s).2 =
      { s with mCompiled := some env.newCompiled, mStatus := .compiled } := by
  by_cases ha : env.allocCompiledOk = false
  · simp [internalCompile, ha] at h
  · simp [internalCompile, ha]

theorem writeCache_state (env : Env) (s : ScriptState) : (writeCache env s).2.1 = s := by
  unfold writeCache
  repeat' split
  all_goals rfl

theorem writeCache_at_compiled (env : Env) (s : ScriptState)
    (h1 : s.mStatus = .compiled) (h2 : (getCompilerErrorMessage s).1 ≠ none) :
    (writeCache env s).1 = 0 := by
  unfold writeCache
  rw [if_neg (by simp [h1]), if_neg h2]
  repeat' split
  all_goals rfl

theorem internalLoadCache_cases (env : Env) (s : ScriptState) (cd cn : Option Str) :
    (∃ s2, internalLoadCache env s cd cn false = (1, s2) ∧ sameCore s s2) ∨
    (∃ c s2, env.readCacheResult = some c ∧
       internalLoadCache env s cd cn false = (0, s2) ∧
       s2.mStatus = .cached ∧ s2.mCompiled = s.mCompiled ∧ s2.mCached = some c) := by
  unfold internalLoadCache
  cases cd with
  | none => exact Or.inl ⟨s, rfl, rfl, rfl, rfl⟩
  | some cdv =>
    cases cn with
    | none => exact Or.inl ⟨s, rfl, rfl, rfl, rfl⟩
    | some cnv =>
      dsimp only
      split
      · exact Or.inl ⟨_, rfl, rfl, rfl, rfl⟩
      · split
        · exact Or.inl ⟨_, rfl, rfl, rfl, rfl⟩
        · split
          · exact Or.inl ⟨_, rfl, rfl, rfl, rfl⟩
          · cases hr : env.readCacheResult with
            | none => exact Or.inl ⟨_, rfl, rfl, rfl, rfl⟩
            | some c => exact Or.inr ⟨c, _, rfl, rfl, rfl, rfl, rfl⟩

theorem internalLoadCache_cacheDir (env : Env) (s : ScriptState) (d cn : Str) :
    (internalLoadCache env s (some d) (some cn) false).2.mCacheDir = sanitizeDir d := by
  unfold internalLoadCache
  dsimp only
  repeat' split
  all_goals rfl

theorem sanitizeDir_getLast (d : Str) (hd : d ≠ []) :
    (sanitizeDir d).getLast? = some '/' := by
  unfold sanitizeDir
  split
  · exact List.getLast?_concat d
  · rename_i hcond
    rcases not_and_or.mp hcond with h | h
    · exact absurd hd h
    · exact not_ne_iff.mp h

theorem getCompilerErrorMessage_cacheDir (s : ScriptState) :
    (getCompilerErrorMessage s).2.mCacheDir = s.mCacheDir := by
  unfold getCompilerErrorMessage
  repeat' split
  all_goals rfl

theorem prepareExecutable_cacheDir (env : Env) (s : ScriptState) (cd cn : Option Str)
    (fl : Nat) (hs : s.mStatus = .unknown) :
    (prepareExecutable env s cd cn fl).2.mCacheDir =
      (internalLoadCache env s cd cn false).2.mCacheDir := by
  unfold prepareExecutable
  rw [if_neg (by simp [hs])]
  dsimp only
  split
  · split
    · dsimp only
      rw [getCompilerErrorMessage_cacheDir, internalCompile_state]
      split
      all_goals rfl
    · split
      · dsimp only
        rw [writeCache_state, internalCompile_state]
        split
        all_goals rfl
      · dsimp only
        rw [writeCache_state, internalCompile_state]
        split
        all_goals rfl
  · rfl

theorem prepareRelocatable_status (env : Env) (s : ScriptState) (p : Option Str)
    (rm fl : Nat) :
    (prepareRelocatable env s p rm fl).2.1.mStatus = s.mStatus ∨
    (prepareRelocatable env s p rm fl).2.1.mStatus = .compiled := by
  unfold prepareRelocatable internalCompile getCompilerErrorMessage
  dsimp only
  repeat' split
  all_goals simp

theorem step_no_return_to_unknown (env : Env) (op : Op) (s : ScriptState)
    (h : s.mStatus ≠ .unknown) : (stepOp env op s).mStatus ≠ .unknown := by
  cases op with
  | opAddSourceBC i r b sz fl =>
      rw [show (stepOp env (.opAddSourceBC i r b sz fl) s).mStatus = s.mStatus from
        (sameCore_addSourceBC env s i r b sz fl).1]
      exact h
  | opAddSourceModule i m fl =>
      rw [show (stepOp env (.opAddSourceModule i m fl) s).mStatus = s.mStatus from
        (sameCore_addSourceModule env s i m fl).1]
      exact h
  | opAddSourceFile i pa fl =>
      rw [show (stepOp env (.opAddSourceFile i pa fl) s).mStatus = s.mStatus from
        (sameCore_addSourceFile env s i pa fl).1]
      exact h
  | opPrepareRelocatable pa rm fl =>
      rcases prepareRelocatable_status env s pa rm fl with hq | hq
      · rw [show (stepOp env (.opPrepareRelocatable pa rm fl) s).mStatus =
            (prepareRelocatable env s pa rm fl).2.1.mStatus from rfl, hq]
        exact h
      · rw [show (stepOp env (.opPrepareRelocatable pa rm fl) s).mStatus =
            (prepareRelocatable env s pa rm fl).2.1.mStatus from rfl, hq]
        simp
  | opPrepareSharedObject => exact h
  | opPrepareExecutable cd cn fl =>
      show (prepareExecutable env s cd cn fl).2.mStatus ≠ .unknown
      unfold prepareExecutable
      rw [if_pos h]
      exact h
  | opRegisterSymbolCallback fn ctx =>
      rw [show (stepOp env (.opRegisterSymbolCallback fn ctx) s).mStatus = s.mStatus from
        (sameCore_registerSymbolCallback s fn ctx).1]
      exact h
  | opLookup nm =>
      rw [show (stepOp env (.opLookup nm) s).mStatus = s.mStatus from
        (sameCore_lookup s nm).1]
      exact h
  | opGetCompilerErrorMessage =>
      rw [show (stepOp env .opGetCompilerErrorMessage s).mStatus = s.mStatus from
        (sameCore_getCompilerErrorMessage s).1]
      exact h
  | opGetExportVarList n =>
      rw [show (stepOp env (.opGetExportVarList n) s).mStatus = s.mStatus from
        (sameCore_delegateList s n _).1]
      exact h
  | opGetExportFuncList n =>
      rw [show (stepOp env (.opGetExportFuncList n) s).mStatus = s.mStatus from
        (sameCore_delegateList s n _).1]
      exact h
  | opGetExportForEachList n =>
      rw [show (stepOp env (.opGetExportForEachList n) s).mStatus = s.mStatus from
        (sameCore_delegateList s n _).1]
      exact h
  | opGetPragmaList n =>
      rw [show (stepOp env (.opGetPragmaList n) s).mStatus = s.mStatus from
        (sameCore_delegateList s n _).1]
      exact h
  | opGetFuncInfoList n =>
      rw [show (stepOp env (.opGetFuncInfoList n) s).mStatus = s.mStatus from
        (sameCore_delegateList s n _).1]
      exact h
  | opGetObjectSlotList n =>
      rw [show (stepOp env (.opGetObjectSlotList n) s).mStatus = s.mStatus from
        (sameCore_delegateList s n _).1]
      exact h
  | opGetExportVarNameList =>
      rw [show (stepOp env .opGetExportVarNameList s).mStatus = s.mStatus from
        (sameCore_getExportVarNameList s).1]
      exact h
  | opGetExportFuncNameList =>
      rw [show (stepOp env .opGetExportFuncNameList s).mStatus = s.mStatus from
        (sameCore_getExportFuncNameList s).1]
      exact h
  | opGetExportForEachNameList =>
      rw [show (stepOp env .opGetExportForEachNameList s).mStatus = s.mStatus from
        (sameCore_getExportForEachNameList s).1]
      exact h
  | opCountQuery => exact h

theorem prepareRelocatable_inv (env : Env) (s : ScriptState) (p : Option Str)
    (rm fl : Nat) (hg : s.mStatus = .unknown) (h : artifactInv s) :
    artifactInv (prepareRelocatable env s p rm fl).2.1 := by
  have hu := h.2.2.2 hg
  unfold prepareRelocatable
  dsimp only
  by_cases ha : env.allocCompiledOk = false
  · have hst : internalCompile env { relocModel := rm, loadAfterCompile := false } s =
        (1, { s with mCompiled := none, mErrorCode := .outOfMemory }) := by
      simp [internalCompile, ha]
    rw [hst]
    dsimp only
    rw [if_pos (by norm_num)]
    refine artifactInv_of_sameCore (sameCore_getCompilerErrorMessage _) ?_
    refine ⟨Or.inl rfl, ?_, ?_, ?_⟩ <;> simp [hg, hu.2]
  · have hst : internalCompile env { relocModel := rm, loadAfterCompile := false } s =
        (internalCompileRet env
           { s with mCompiled := some env.newCompiled, mStatus := .compiled },
         { s with mCompiled := some env.newCompiled, mStatus := .compiled }) := by
      simp [internalCompile, ha]
    rw [hst]
    dsimp only
    have hinv1 : artifactInv { s with mCompiled := some env.newCompiled, mStatus := .compiled } := by
      refine ⟨Or.inr ?_, ?_, ?_, ?_⟩ <;> simp [hu.2]
    split
    · exact artifactInv_of_sameCore (sameCore_getCompilerErrorMessage _) hinv1
    · split
      · exact hinv1
      · split
        · exact hinv1
        · exact hinv1

theorem prepareExecutable_inv (env : Env) (s : ScriptState) (cd cn : Option Str)
    (fl : Nat) (h : artifactInv s) : artifactInv (prepareExecutable env s cd cn fl).2 := by
  by_cases hs : s.mStatus = .unknown
  · have hu := h.2.2.2 hs
    unfold prepareExecutable
    rw [if_neg (by simp [hs])]
    dsimp only
    rcases internalLoadCache_cases env s cd cn with ⟨s2, heq, hc⟩ | ⟨c, s2, hrc, heq, h1, h2, h3⟩
    · have hinv2 : artifactInv s2 := artifactInv_of_sameCore hc h
      have hc2 : s2.mCached = none := by rw [hc.2.2, hu.2]
      rw [heq]
      dsimp only
      rw [if_pos (by norm_num)]
      have hb : artifactInv (internalCompile env defaultCompilerOption s2).2 := by
        rw [internalCompile_state]
        split
        · refine ⟨Or.inl rfl, ?_, ?_, ?_⟩ <;> simp [hc.1, hs, hc2]
        · refine ⟨Or.inr ?_, ?_, ?_, ?_⟩ <;> simp [hc2]
      split
      · exact artifactInv_of_sameCore (sameCore_getCompilerErrorMessage _) hb
      · split
        · dsimp only
          rw [writeCache_state]
          exact hb
        · dsimp only
          rw [writeCache_state]
          exact artifactInv_of_sameCore (⟨rfl, rfl, rfl⟩ : sameCore _ _) hb
    · rw [heq]
      dsimp only
      rw [if_neg (by norm_num)]
      dsimp only
      refine ⟨Or.inl ?_, ?_, ?_, ?_⟩ <;> simp [h1, h2, h3, hu.1]
  · unfold prepareExecutable
    rw [if_pos hs]
    exact artifactInv_of_sameCore (⟨rfl, rfl, rfl⟩ : sameCore s _) h

theorem stepPreservesInv (env : Env) (op : Op) (s : ScriptState) (hok : opOkOn s op)
    (h : artifactInv s) : artifactInv (stepOp env op s) := by
  cases op with
  | opAddSourceBC i r b sz fl => exact artifactInv_of_sameCore (sameCore_addSourceBC env s i r b sz fl) h
  | opAddSourceModule i m fl => exact artifactInv_of_sameCore (sameCore_addSourceModule env s i m fl) h
  | opAddSourceFile i pa fl => exact artifactInv_of_sameCore (sameCore_addSourceFile env s i pa fl) h
  | opPrepareRelocatable pa rm fl => exact prepareRelocatable_inv env s pa rm fl hok h
  | opPrepareSharedObject => exact h
  | opPrepareExecutable cd cn fl => exact prepareExecutable_inv env s cd cn fl h
  | opRegisterSymbolCallback fn ctx => exact artifactInv_of_sameCore (sameCore_registerSymbolCallback s fn ctx) h
  | opLookup nm => exact artifactInv_of_sameCore (sameCore_lookup s nm) h
  | opGetCompilerErrorMessage => exact artifactInv_of_sameCore (sameCore_getCompilerErrorMessage s) h
  | opGetExportVarList n => exact artifactInv_of_sameCore (sameCore_delegateList s n _) h
  | opGetExportFuncList n => exact artifactInv_of_sameCore (sameCore_delegateList s n _) h
  | opGetExportForEachList n => exact artifactInv_of_sameCore (sameCore_delegateList s n _) h
  | opGetPragmaList n => exact artifactInv_of_sameCore (sameCore_delegateList s n _) h
  | opGetFuncInfoList n => exact artifactInv_of_sameCore (sameCore_delegateList s n _) h
  | opGetObjectSlotList n => exact artifactInv_of_sameCore (sameCore_delegateList s n _) h
  | opGetExportVarNameList => exact artifactInv_of_sameCore (sameCore_getExportVarNameList s) h
  | opGetExportFuncNameList => exact artifactInv_of_sameCore (sameCore_getExportFuncNameList s) h
  | opGetExportForEachNameList => exact artifactInv_of_sameCore (sameCore_getExportForEachNameList s) h
  | opCountQuery => exact h

theorem artifactInv_init : artifactInv initState := by
  unfold artifactInv
  refine ⟨Or.inl rfl, ?_, ?_, ?_⟩ <;> intro hx <;> simp [initState] at hx ⊢

theorem prepareExecutable_miss_ok (env : Env) (s : ScriptState) (cd cn : Option Str)
    (fl : Nat) (hs : s.mStatus = .unknown)
    (hmiss : (internalLoadCache env s cd cn false).1 ≠ 0)
    (hcomp : (internalCompile env defaultCompilerOption
        (internalLoadCache env s cd cn false).2).1 = 0)
    (hmsg : env.newCompiled.errMsg ≠ none) :
    prepareExecutable env s cd cn fl =
      (0, { (internalCompile env defaultCompilerOption
              (internalLoadCache env s cd cn false).2).2
            with mObjectType := ObjectType.executable }) := by
  have hst := internalCompile_zero env defaultCompilerOption _ hcomp
  have hwc1 : (writeCache env (internalCompile env defaultCompilerOption
      (internalLoadCache env s cd cn false).2).2).1 = 0 := by
    apply writeCache_at_compiled
    · rw [hst]
    · rw [hst]
      simp [getCompilerErrorMessage]
      exact hmsg
  unfold prepareExecutable
  rw [if_neg (by simp [hs])]
  dsimp only
  rw [if_pos hmiss]
  rw [if_neg (by simp [hcomp])]
  rw [if_neg (by simp [hwc1])]
  rw [writeCache_state]

/- Claim theorems. -/

/-- C1: in a prepareExecutable call whose cache load misses and whose
compile pipeline succeeds (with the backend's non-NULL error-message
pointer, as ScriptCompiled::getCompilerErrorMessage always returns), a
failing cache-write step does not fail the overall operation: the call
returns 0 and the freshly compiled in-memory artifact stays active. -/
theorem cache_write_failure_not_fatal (env : Env) (s : ScriptState) (cd cn : Option Str)
    (fl : Nat) (hs : s.mStatus = .unknown)
    (hmiss : (internalLoadCache env s cd cn false).1 ≠ 0)
    (hcomp : (internalCompile env defaultCompilerOption
        (internalLoadCache env s cd cn false).2).1 = 0)
    (hmsg : env.newCompiled.errMsg ≠ none)
    (hwfail : (writeCache env (internalCompile env defaultCompilerOption
        (internalLoadCache env s cd cn false).2).2).2.2 = false) :
    (prepareExecutable env s cd cn fl).1 = 0 ∧
    (prepareExecutable env s cd cn fl).2.mStatus = .compiled ∧
    (prepareExecutable env s cd cn fl).2.mCompiled = some env.newCompiled := by
  rw [prepareExecutable_miss_ok env s cd cn fl hs hmiss hcomp hmsg,
      internalCompile_zero env defaultCompilerOption _ hcomp]
  exact ⟨rfl, rfl, rfl⟩

/-- Witness for C1 at a concrete input: one primary source, cache files
unopenable (miss), compile pipeline succeeds, cache-write file unopenable
(write failure). -/
theorem cache_write_failure_not_fatal_w :
    (prepareExecutable envCompileOk srcState (some ['c']) (some ['n']) 0).1 = 0 ∧
    (prepareExecutable envCompileOk srcState (some ['c']) (some ['n']) 0).2.mStatus = .compiled ∧
    (prepareExecutable envCompileOk srcState (some ['c']) (some ['n']) 0).2.mCompiled =
      some envCompileOk.newCompiled :=
  cache_write_failure_not_fatal envCompileOk srcState (some ['c']) (some ['n']) 0 rfl
    (by decide) (by decide) (by decide) (by decide)

/-- C2: the code evaluated at the failing input.  With a successful
compile, an openable output file, ELF size 2 and an OS write of only 1
byte, prepareRelocatable unlinks the partial file but then executes
`return false`, i.e. it returns 0 (success) instead of the non-zero
failure status the claim requires. -/
theorem prepareRelocatable_short_write_reports_success :
    (prepareRelocatable envShortWrite srcState (some ['o']) 0 0).1 = 0 ∧
    (prepareRelocatable envShortWrite srcState (some ['o']) 0 0).2.2 = none ∧
    (prepareRelocatable envShortWrite srcState (some ['o']) 0 0).2.1.mStatus =
      ScriptStatus.compiled := by
  decide

/-- C3 counterexample: a Script finalized as Compiled (status not
Unknown) on which prepareRelocatable nevertheless runs the compile
pipeline and returns 0, with errorCode untouched — not the claimed
InvalidOperation failure. -/
theorem prepareRelocatable_skips_status_check_cex :
    compiledRelocState.mStatus ≠ ScriptStatus.unknown ∧
    (prepareRelocatable envRelocOk compiledRelocState (some ['q']) 0 0).1 = 0 ∧
    (prepareRelocatable envRelocOk compiledRelocState (some ['q']) 0 0).2.1.mErrorCode ≠
      BCCError.invalidOperation := by
  decide

/-- C3 (amended): for every Script whose status is not Unknown,
prepareExecutable fails with errorCode InvalidOperation without running
the compile pipeline and without touching any other field; and no
operation ever transitions the status back to Unknown.  (prepareRelocatable
performs no such status check and runs the compile pipeline regardless.) -/
theorem finalized_prepareExecutable_rejects (env : Env) (s : ScriptState)
    (cd cn : Option Str) (fl : Nat) (h : s.mStatus ≠ .unknown) :
    prepareExecutable env s cd cn fl = (1, { s with mErrorCode := .invalidOperation }) ∧
    ∀ (env2 : Env) (op : Op), (stepOp env2 op s).mStatus ≠ .unknown := by
  refine ⟨?_, fun env2 op => step_no_return_to_unknown env2 op s h⟩
  unfold prepareExecutable
  rw [if_pos h]

/-- Witness for C3 at a concrete finalized Script. -/
theorem finalized_prepareExecutable_rejects_w :
    prepareExecutable env0 compiledRelocState none none 0 =
      (1, { compiledRelocState with mErrorCode := BCCError.invalidOperation }) ∧
    (stepOp env0 Op.opPrepareSharedObject compiledRelocState).mStatus ≠
      ScriptStatus.unknown :=
  ⟨(finalized_prepareExecutable_rejects env0 compiledRelocState none none 0 (by decide)).1,
   (finalized_prepareExecutable_rejects env0 compiledRelocState none none 0 (by decide)).2
     env0 Op.opPrepareSharedObject⟩

/-- C4 counterexample: on a finalized Script, addSourceBC with a NULL
resName fails with errorCode InvalidValue (the NULL-resName check runs
before the state check), not the claimed InvalidOperation. -/
theorem null_resName_gives_invalidValue_cex :
    compiledRelocState.mStatus ≠ ScriptStatus.unknown ∧
    addSourceBC env0 compiledRelocState 0 none (some 1) 1 0 =
      (1, { compiledRelocState with mErrorCode := BCCError.invalidValue }) ∧
    BCCError.invalidValue ≠ BCCError.invalidOperation := by
  decide

/-- C4 (amended): on a Script whose status is not Unknown, every
addSource operation fails and leaves both source slots (and every other
field except errorCode) unchanged; addSourceModule and addSourceFile
always set InvalidOperation, and addSourceBC sets InvalidOperation for a
non-NULL resName but InvalidValue for a NULL resName. -/
theorem addSource_after_finalization_fails (env : Env) (s : ScriptState) (idx : Fin 2)
    (rn : Str) (bc : Option Nat) (sz fl : Nat) (md : Option Nat) (p : Option Str)
    (h : s.mStatus ≠ .unknown) :
    addSourceBC env s idx (some rn) bc sz fl =
      (1, { s with mErrorCode := .invalidOperation }) ∧
    addSourceBC env s idx none bc sz fl = (1, { s with mErrorCode := .invalidValue }) ∧
    addSourceModule env s idx md fl = (1, { s with mErrorCode := .invalidOperation }) ∧
    addSourceFile env s idx p fl = (1, { s with mErrorCode := .invalidOperation }) := by
  refine ⟨?_, ?_, ?_, ?_⟩ <;> simp [addSourceBC, addSourceModule, addSourceFile, h]

/-- Witness for C4 at a concrete finalized Script. -/
theorem addSource_after_finalization_fails_w :
    addSourceBC envAddSrc compiledRelocState 0 (some ['r']) none 0 0 =
      (1, { compiledRelocState with mErrorCode := BCCError.invalidOperation }) ∧
    addSourceBC envAddSrc compiledRelocState 0 none none 0 0 =
      (1, { compiledRelocState with mErrorCode := BCCError.invalidValue }) ∧
    addSourceModule envAddSrc compiledRelocState 0 none 0 =
      (1, { compiledRelocState with mErrorCode := BCCError.invalidOperation }) ∧
    addSourceFile envAddSrc compiledRelocState 0 none 0 =
      (1, { compiledRelocState with mErrorCode := BCCError.invalidOperation }) :=
  addSource_after_finalization_fails envAddSrc compiledRelocState 0 ['r'] none 0 0 none none
    (by decide)

/-- C5 counterexample: on a fresh (Unknown) Script the count query
returns zero but, being a const member, leaves the state — including
errorCode — entirely unchanged; errorCode is not set to InvalidOperation
as the claim states. -/
theorem count_query_leaves_error_unset_cex :
    getExportVarCount initState = 0 ∧
    stepOp env0 Op.opCountQuery initState = initState ∧
    initState.mErrorCode ≠ BCCError.invalidOperation := by
  decide

/-- C5 (amended): on a Script whose status is Unknown, every count query
returns zero without touching the state (the six count methods are const
members and cannot set errorCode), and every list-fill query — pointer
lists and name lists alike — writes nothing to the caller's buffer and
sets errorCode to InvalidOperation. -/
theorem unknown_status_query_behavior (s : ScriptState) (n : Nat)
    (h : s.mStatus = .unknown) :
    getExportVarCount s = 0 ∧ getExportFuncCount s = 0 ∧ getExportForEachCount s = 0 ∧
    getPragmaCount s = 0 ∧ getFuncCount s = 0 ∧ getObjectSlotCount s = 0 ∧
    getExportVarList s n = (none, { s with mErrorCode := .invalidOperation }) ∧
    getExportFuncList s n = (none, { s with mErrorCode := .invalidOperation }) ∧
    getExportForEachList s n = (none, { s with mErrorCode := .invalidOperation }) ∧
    getPragmaList s n = (none, { s with mErrorCode := .invalidOperation }) ∧
    getFuncInfoList s n = (none, { s with mErrorCode := .invalidOperation }) ∧
    getObjectSlotList s n = (none, { s with mErrorCode := .invalidOperation }) ∧
    getExportVarNameList s = (none, { s with mErrorCode := .invalidOperation }) ∧
    getExportFuncNameList s = (none, { s with mErrorCode := .invalidOperation }) ∧
    getExportForEachNameList s = (none, { s with mErrorCode := .invalidOperation }) := by
  refine ⟨?_, ?_, ?_, ?_, ?_, ?_, ?_, ?_, ?_, ?_, ?_, ?_, ?_, ?_, ?_⟩ <;>
    simp [getExportVarCount, getExportFuncCount, getExportForEachCount, getPragmaCount,
      getFuncCount, getObjectSlotCount, delegateNat, getExportVarList, getExportFuncList,
      getExportForEachList, getPragmaList, getFuncInfoList, getObjectSlotList, delegateList,
      getExportVarNameList, getExportFuncNameList, getExportForEachNameList, h]

/-- Witness for C5 at the fresh Script. -/
theorem unknown_status_query_behavior_w :
    getExportVarCount initState = 0 ∧ getExportFuncCount initState = 0 ∧
    getExportForEachCount initState = 0 ∧ getPragmaCount initState = 0 ∧
    getFuncCount initState = 0 ∧ getObjectSlotCount initState = 0 ∧
    getExportVarList initState 0 = (none, { initState with mErrorCode := .invalidOperation }) ∧
    getExportFuncList initState 0 = (none, { initState with mErrorCode := .invalidOperation }) ∧
    getExportForEachList initState 0 = (none, { initState with mErrorCode := .invalidOperation }) ∧
    getPragmaList initState 0 = (none, { initState with mErrorCode := .invalidOperation }) ∧
    getFuncInfoList initState 0 = (none, { initState with mErrorCode := .invalidOperation }) ∧
    getObjectSlotList initState 0 = (none, { initState with mErrorCode := .invalidOperation }) ∧
    getExportVarNameList initState = (none, { initState with mErrorCode := .invalidOperation }) ∧
    getExportFuncNameList initState = (none, { initState with mErrorCode := .invalidOperation }) ∧
    getExportForEachNameList initState = (none, { initState with mErrorCode := .invalidOperation }) :=
  unknown_status_query_behavior initState 0 rfl

/-- C6 counterexample: a Script finalized through a cache hit (status
Cached, cached artifact live) on which getExportVarNameList does not
answer from the cached artifact: it writes nothing and sets
InvalidOperation. -/
theorem cached_name_list_query_fails_cex :
    cachedHitState.mStatus = ScriptStatus.cached ∧
    cachedHitState.mCached ≠ none ∧
    getExportVarNameList cachedHitState =
      (none, { cachedHitState with mErrorCode := BCCError.invalidOperation }) := by
  decide

/-- C6 (amended): on a finalized Script the count queries and the
fixed-capacity pointer-list queries delegate to the artifact matching the
status in both the Compiled and the Cached state, but the three name-list
queries delegate only in the Compiled state; in the Cached state they
write nothing and set InvalidOperation. -/
theorem finalized_query_delegation (s : ScriptState) (a : Artifact) (n : Nat) :
    (s.mStatus = .compiled → s.mCompiled = some a →
      (getExportVarCount s = a.exportVarCount ∧
       getExportFuncCount s = a.exportFuncCount ∧
       getExportForEachCount s = a.exportForEachCount ∧
       getPragmaCount s = a.pragmaCount ∧
       getFuncCount s = a.funcCount ∧
       getObjectSlotCount s = a.objectSlotCount ∧
       getExportVarList s n = (some (a.exportVars.take n), s) ∧
       getExportFuncList s n = (some (a.exportFuncs.take n), s) ∧
       getExportForEachList s n = (some (a.exportForEachs.take n), s) ∧
       getPragmaList s n = (some (a.pragmas.take n), s) ∧
       getFuncInfoList s n = (some (a.funcInfos.take n), s) ∧
       getObjectSlotList s n = (some (a.objectSlots.take n), s) ∧
       getExportVarNameList s = (some a.exportVarNames, s) ∧
       getExportFuncNameList s = (some a.exportFuncNames, s) ∧
       getExportForEachNameList s = (some a.exportForEachNames, s))) ∧
    (s.mStatus = .cached → s.mCached = some a →
      (getExportVarCount s = a.exportVarCount ∧
       getExportFuncCount s = a.exportFuncCount ∧
       getExportForEachCount s = a.exportForEachCount ∧
       getPragmaCount s = a.pragmaCount ∧
       getFuncCount s = a.funcCount ∧
       getObjectSlotCount s = a.objectSlotCount ∧
       getExportVarList s n = (some (a.exportVars.take n), s) ∧
       getExportFuncList s n = (some (a.exportFuncs.take n), s) ∧
       getExportForEachList s n = (some (a.exportForEachs.take n), s) ∧
       getPragmaList s n = (some (a.pragmas.take n), s) ∧
       getFuncInfoList s n = (some (a.funcInfos.take n), s) ∧
       getObjectSlotList s n = (some (a.objectSlots.take n), s) ∧
       getExportVarNameList s = (none, { s with mErrorCode := .invalidOperation }) ∧
       getExportFuncNameList s = (none, { s with mErrorCode := .invalidOperation }) ∧
       getExportForEachNameList s = (none, { s with mErrorCode := .invalidOperation }))) := by
  constructor
  · intro h1 h2
    refine ⟨?_, ?_, ?_, ?_, ?_, ?_, ?_, ?_, ?_, ?_, ?_, ?_, ?_, ?_, ?_⟩ <;>
      simp [getExportVarCount, getExportFuncCount, getExportForEachCount, getPragmaCount,
        getFuncCount, getObjectSlotCount, delegateNat, getExportVarList, getExportFuncList,
        getExportForEachList, getPragmaList, getFuncInfoList, getObjectSlotList, delegateList,
        getExportVarNameList, getExportFuncNameList, getExportForEachNameList, h1, h2]
  · intro h1 h2
    refine ⟨?_, ?_, ?_, ?_, ?_, ?_, ?_, ?_, ?_, ?_, ?_, ?_, ?_, ?_, ?_⟩ <;>
      simp [getExportVarCount, getExportFuncCount, getExportForEachCount, getPragmaCount,
        getFuncCount, getObjectSlotCount, delegateNat, getExportVarList, getExportFuncList,
        getExportForEachList, getPragmaList, getFuncInfoList, getObjectSlotList, delegateList,
        getExportVarNameList, getExportFuncNameList, getExportForEachNameList, h1, h2]

/-- Witness for C6 at a concrete Cached Script and a concrete Compiled
Script. -/
theorem finalized_query_delegation_w :
    (getExportVarCount cachedHitState = artifactC.exportVarCount ∧
     getExportFuncCount cachedHitState = artifactC.exportFuncCount ∧
     getExportForEachCount cachedHitState = artifactC.exportForEachCount ∧
     getPragmaCount cachedHitState = artifactC.pragmaCount ∧
     getFuncCount cachedHitState = artifactC.funcCount ∧
     getObjectSlotCount cachedHitState = artifactC.objectSlotCount ∧
     getExportVarList cachedHitState 0 = (some (artifactC.exportVars.take 0), cachedHitState) ∧
     getExportFuncList cachedHitState 0 = (some (artifactC.exportFuncs.take 0), cachedHitState) ∧
     getExportForEachList cachedHitState 0 = (some (artifactC.exportForEachs.take 0), cachedHitState) ∧
     getPragmaList cachedHitState 0 = (some (artifactC.pragmas.take 0), cachedHitState) ∧
     getFuncInfoList cachedHitState 0 = (some (artifactC.funcInfos.take 0), cachedHitState) ∧
     getObjectSlotList cachedHitState 0 = (some (artifactC.objectSlots.take 0), cachedHitState) ∧
     getExportVarNameList cachedHitState =
       (none, { cachedHitState with mErrorCode := .invalidOperation }) ∧
     getExportFuncNameList cachedHitState =
       (none, { cachedHitState with mErrorCode := .invalidOperation }) ∧
     getExportForEachNameList cachedHitState =
       (none, { cachedHitState with mErrorCode := .invalidOperation })) ∧
    (getExportVarCount compiledRelocState = artifactM.exportVarCount ∧
     getExportFuncCount compiledRelocState = artifactM.exportFuncCount ∧
     getExportForEachCount compiledRelocState = artifactM.exportForEachCount ∧
     getPragmaCount compiledRelocState = artifactM.pragmaCount ∧
     getFuncCount compiledRelocState = artifactM.funcCount ∧
     getObjectSlotCount compiledRelocState = artifactM.objectSlotCount ∧
     getExportVarList compiledRelocState 0 = (some (artifactM.exportVars.take 0), compiledRelocState) ∧
     getExportFuncList compiledRelocState 0 = (some (artifactM.exportFuncs.take 0), compiledRelocState) ∧
     getExportForEachList compiledRelocState 0 = (some (artifactM.exportForEachs.take 0), compiledRelocState) ∧
     getPragmaList compiledRelocState 0 = (some (artifactM.pragmas.take 0), compiledRelocState) ∧
     getFuncInfoList compiledRelocState 0 = (some (artifactM.funcInfos.take 0), compiledRelocState) ∧
     getObjectSlotList compiledRelocState 0 = (some (artifactM.objectSlots.take 0), compiledRelocState) ∧
     getExportVarNameList compiledRelocState = (some artifactM.exportVarNames, compiledRelocState) ∧
     getExportFuncNameList compiledRelocState = (some artifactM.exportFuncNames, compiledRelocState) ∧
     getExportForEachNameList compiledRelocState = (some artifactM.exportForEachNames, compiledRelocState)) :=
  ⟨(finalized_query_delegation cachedHitState artifactC 0).2 (by decide) (by decide),
   (finalized_query_delegation compiledRelocState artifactM 0).1 (by decide) (by decide)⟩

/-- C7: registerSymbolCallback stores the callback and context
unconditionally, and reports a failure with errorCode InvalidOperation
exactly when the status is not Unknown — a late registration both fails
and still takes effect. -/
theorem registerSymbolCallback_stores_then_checks (s : ScriptState) (fn : Option Nat)
    (ctx : Nat) :
    (registerSymbolCallback s fn ctx).2.mpExtSymbolLookupFn = fn ∧
    (registerSymbolCallback s fn ctx).2.mpExtSymbolLookupFnContext = ctx ∧
    ((registerSymbolCallback s fn ctx).1 ≠ 0 ↔ s.mStatus ≠ .unknown) ∧
    (s.mStatus ≠ .unknown →
      (registerSymbolCallback s fn ctx).2.mErrorCode = .invalidOperation) := by
  unfold registerSymbolCallback
  dsimp only
  by_cases h : s.mStatus = .unknown <;> simp [h]

/-- Witness for C7 at a concrete finalized Script. -/
theorem registerSymbolCallback_stores_then_checks_w :
    (registerSymbolCallback compiledRelocState (some 7) 9).2.mpExtSymbolLookupFn = some 7 ∧
    (registerSymbolCallback compiledRelocState (some 7) 9).2.mpExtSymbolLookupFnContext = 9 ∧
    (registerSymbolCallback compiledRelocState (some 7) 9).1 ≠ 0 ∧
    (registerSymbolCallback compiledRelocState (some 7) 9).2.mErrorCode =
      BCCError.invalidOperation := by
  have h := registerSymbolCallback_stores_then_checks compiledRelocState (some 7) 9
  exact ⟨h.1, h.2.1, h.2.2.1.mpr (by decide), h.2.2.2 (by decide)⟩

/-- C8 counterexample: a reachable state (cache-hit prepareExecutable,
then prepareRelocatable) in which both the compiled and the cached
artifact pointers are simultaneously non-null. -/
theorem both_artifacts_live_cex :
    Reachable bothLiveState ∧ bothLiveState.mCompiled ≠ none ∧
    bothLiveState.mCached ≠ none := by
  refine ⟨?_, by decide, by decide⟩
  exact Reachable.step
    (Reachable.step Reachable.start envHit
      (Op.opPrepareExecutable (some ['d']) (some ['n']) 0))
    envCompileOk (Op.opPrepareRelocatable (some ['p']) 0 0)

/-- On a Compiled Script, a prepareRelocatable call whose artifact
allocation fails stores NULL into mCompiled (Script.cpp line 334) while
mStatus stays Compiled, so the tag and the pointer disagree.  Together
with both_artifacts_live_cex this is why the guarded invariant admits
prepareRelocatable only on Unknown-status Scripts. -/
theorem alloc_failure_on_compiled_breaks_tag :
    (prepareRelocatable env0 compiledRelocState (some ['q']) 0 0).2.1.mStatus =
      ScriptStatus.compiled ∧
    (prepareRelocatable env0 compiledRelocState (some ['q']) 0 0).2.1.mCompiled = none := by
  decide

/-- C8 (amended): in every state reachable by operation sequences that
invoke prepareRelocatable only on Scripts whose status is still Unknown,
at most one of the two artifact pointers is non-null, and the live
pointer matches the status tag.  (On a Cached Script prepareRelocatable
leaves both artifacts live; on a Compiled Script a failing allocation
leaves the Compiled tag with a NULL compiled artifact.) -/
theorem guarded_artifact_invariant (s : ScriptState) (h : ReachableG s) :
    (s.mCompiled = none ∨ s.mCached = none) ∧
    (s.mStatus = .compiled → s.mCompiled ≠ none) ∧
    (s.mStatus = .cached → s.mCached ≠ none) := by
  have key : artifactInv s := by
    induction h with
    | start => exact artifactInv_init
    | step hr env op hok ih => exact stepPreservesInv env op _ hok ih
  exact ⟨key.1, key.2.1, key.2.2.1⟩

/-- Witness for C8 at the initial state. -/
theorem guarded_artifact_invariant_w :
    (initState.mCompiled = none ∨ initState.mCached = none) ∧
    (initState.mStatus = .compiled → initState.mCompiled ≠ none) ∧
    (initState.mStatus = .cached → initState.mCached ≠ none) :=
  guarded_artifact_invariant initState ReachableG.start

/-- C9 counterexample: prepareExecutable with a non-null but empty
cacheDir leaves the stored cache directory empty, not ending in the path
separator. -/
theorem empty_cacheDir_unnormalized_cex :
    (prepareExecutable envCompileOk srcState (some []) (some ['n']) 0).2.mCacheDir = [] ∧
    ((prepareExecutable envCompileOk srcState (some []) (some ['n']) 0).2.mCacheDir).getLast? ≠
      some '/' := by
  decide

/-- C9 (amended): for every prepareExecutable call on an Unknown-status
Script with a non-null, non-empty cacheDir and a non-null cacheName, the
stored cache directory ends with the path separator after the call. -/
theorem cacheDir_normalized_nonempty (env : Env) (s : ScriptState) (d cn : Str)
    (fl : Nat) (hs : s.mStatus = .unknown) (hd : d ≠ []) :
    ((prepareExecutable env s (some d) (some cn) fl).2.mCacheDir).getLast? = some '/' := by
  rw [prepareExecutable_cacheDir env s (some d) (some cn) fl hs,
      internalLoadCache_cacheDir]
  exact sanitizeDir_getLast d hd

/-- Witness for C9 at a concrete one-character cacheDir. -/
theorem cacheDir_normalized_nonempty_w :
    ((prepareExecutable env0 initState (some ['x']) (some ['n']) 0).2.mCacheDir).getLast? =
      some '/' :=
  cacheDir_normalized_nonempty env0 initState ['x'] ['n'] 0 rfl (by decide)

/-- C10: whenever internalCompile is entered and the artifact allocation
succeeds, the status is Compiled and the compiled artifact live in the
resulting state regardless of every later pipeline outcome (the status is
set before any source is validated); consequently addSource calls and
prepareExecutable on that state fail with InvalidOperation, and
getCompilerErrorMessage returns the artifact's message without error. -/
theorem internalCompile_sets_status_before_pipeline (env envA envB : Env)
    (opt : CompilerOption) (s : ScriptState) (idx : Fin 2) (rn : Str)
    (bc md : Option Nat) (pa : Option Str) (cd cn : Option Str) (fl : Nat)
    (halloc : env.allocCompiledOk = true) :
    (internalCompile env opt s).2.mStatus = .compiled ∧
    (internalCompile env opt s).2.mCompiled = some env.newCompiled ∧
    addSourceBC envA (internalCompile env opt s).2 idx (some rn) bc fl fl =
      (1, { (internalCompile env opt s).2 with mErrorCode := .invalidOperation }) ∧
    addSourceModule envA (internalCompile env opt s).2 idx md fl =
      (1, { (internalCompile env opt s).2 with mErrorCode := .invalidOperation }) ∧
    addSourceFile envA (internalCompile env opt s).2 idx pa fl =
      (1, { (internalCompile env opt s).2 with mErrorCode := .invalidOperation }) ∧
    prepareExecutable envB (internalCompile env opt s).2 cd cn fl =
      (1, { (internalCompile env opt s).2 with mErrorCode := .invalidOperation }) ∧
    getCompilerErrorMessage (internalCompile env opt s).2 =
      (env.newCompiled.errMsg, (internalCompile env opt s).2) := by
  have hst := internalCompile_state env opt s
  rw [if_neg (by simp [halloc])] at hst
  rw [hst]
  refine ⟨rfl, rfl, ?_, ?_, ?_, ?_, ?_⟩ <;>
    simp [addSourceBC, addSourceModule, addSourceFile, prepareExecutable,
      getCompilerErrorMessage]

/-- Witness for C10: a sourceless Script, so the pipeline fails right
after the allocation, yet the state is Compiled with a live artifact. -/
theorem internalCompile_sets_status_before_pipeline_w :
    (internalCompile envCompileOk defaultCompilerOption initState).2.mStatus =
      ScriptStatus.compiled ∧
    (internalCompile envCompileOk defaultCompilerOption initState).2.mCompiled =
      some envCompileOk.newCompiled ∧
    (internalCompile envCompileOk defaultCompilerOption initState).1 ≠ 0 := by
  have h := internalCompile_sets_status_before_pipeline envCompileOk env0 env0
    defaultCompilerOption initState 0 ['r'] none none none none none 0 (by decide)
  exact ⟨h.1, h.2.1, by decide⟩

end BCC
